import Mathlib

/-!
Verification development for the SignLanguage fingerspelling repository.

The repository contains two variants of the same React application, each with a
geometric gesture classifier (the function named recognizeGesture) and a
temporal stabilization engine (the body of the per-frame function detect).
This file gives a shallow embedding of both and proves or refutes the frozen
claims about them.

Conventions of the embedding:
- JS numbers are modelled as real numbers (the classifier uses Math.hypot,
  i.e. square roots, so its carrier is the real field); the purely symbolic
  stabilization engine is modelled computably over an inductive symbol type.
- Each JS string literal used as a gesture value is one constructor of Sym.
  Output text is a list of committed symbols: every string the engine ever
  appends is a single character (a letter or one space character), so a list
  of symbols is an exact rendering of the accumulated string.
- Early returns in the JS classifier become nested if-then-else expressions;
  a guarded return inside a block that can fall through becomes a conjunction
  of the outer and inner guard.
-/

namespace Sign

/-- A 2D keypoint in frame pixel space (one hand landmark, with fields x, y
as in the detector output consumed by recognizeGesture). -/
structure Pt where
  x : ℝ
  y : ℝ

/-- A HandFrame: hand.keypoints, exactly 21 keypoints indexed by the standard
hand-skeleton layout (wrist 0, thumb 1-4, index 5-8, middle 9-12, ring 13-16,
pinky 17-20). -/
def Frame : Type := Fin 21 → Pt

/-- JS Math.hypot on two arguments: the square root of the sum of squares. -/
noncomputable def hyp (a b : ℝ) : ℝ := Real.sqrt (a ^ 2 + b ^ 2)

/-- Distance between keypoints i and j of a frame, exactly the expression
Math.hypot(k[i].x - k[j].x, k[i].y - k[j].y) used throughout both
classifiers (named d in src/src/App.js). -/
noncomputable def kdist (k : Frame) (i j : Fin 21) : ℝ :=
  hyp ((k i).x - (k j).x) ((k i).y - (k j).y)

/-- handSize = Math.hypot(k[9].x - k[0].x, k[9].y - k[0].y): the wrist to
middle-MCP distance, the normalization unit of every threshold. -/
noncomputable def handSize (k : Frame) : ℝ := kdist k 9 0

/-- The gesture strings occurring in the two source variants, one constructor
per distinct string literal. Letters stand for their one-character strings;
openHand is the open-hand emoji string (the FIST_AMBIGUOUS sentinel of the
spec), showHand is the no-hand banner, showYourHand is the (distinct) string
compared against in the commit guard of src/unnamed/part_000, loading is the
initial banner, blank is the empty string and space the one-space string. -/
inductive Sym : Type
  | A | B | C | D | E | F | G | H | I | K | L | M | N | O | P | Q | R | S | T
  | U | V | W | X | Y
  | openHand
  | showHand
  | showYourHand
  | loading
  | blank
  | space
  deriving DecidableEq, Repr

/-- Uniform scaling of every keypoint coordinate by a factor s. -/
def scaleFrame (s : ℝ) (k : Frame) : Frame :=
  fun i => ⟨s * (k i).x, s * (k i).y⟩

/-- Uniform translation of every keypoint by an offset (dx, dy). -/
def translateFrame (dx dy : ℝ) (k : Frame) : Frame :=
  fun i => ⟨(k i).x + dx, (k i).y + dy⟩

/-- The degenerate frame in which all 21 keypoints coincide at the origin, so
handSize = 0 (wrist and middle MCP coincide). -/
def zeroFrame : Frame := fun _ => ⟨0, 0⟩

namespace Part000

/-- isExtended from src/unnamed/part_000: tip-to-MCP distance above
0.6 * handSize. -/
def isExtended (k : Frame) (tip mcp : Fin 21) : Prop :=
  kdist k tip mcp > handSize k * 0.6

open Classical in
/-- Shallow embedding of recognizeGesture from src/unnamed/part_000
(lines 81-153). Named intermediate constants of the source are inlined:
distThumbIndex = kdist k 4 8, distIndexTipKnuckle = kdist k 8 5,
distThumbBase = kdist k 4 5, thumbTip = k 4, indexMcp = k 5. -/
noncomputable def recognizeGesture (k : Frame) : Sym :=
  if isExtended k 8 5 ∧ ¬ isExtended k 12 9 ∧ ¬ isExtended k 16 13 ∧ ¬ isExtended k 20 17 then
    if |(k 8).x - (k 5).x| > |(k 8).y - (k 5).y| + handSize k * 0.1 then .G
    else if kdist k 4 5 > handSize k * 0.9 then .L
    else if (k 8).y > (k 6).y - handSize k * 0.2 then .X
    else .D
  else if (¬ isExtended k 12 9 ∧ ¬ isExtended k 16 13 ∧ ¬ isExtended k 20 17) ∧
      kdist k 8 5 > handSize k * 0.55 then .O
  else if kdist k 4 8 < handSize k * 0.45 ∧
      (isExtended k 12 9 ∧ isExtended k 16 13 ∧ isExtended k 20 17) then .F
  else if isExtended k 8 5 ∧ isExtended k 12 9 ∧ ¬ isExtended k 16 13 ∧ ¬ isExtended k 20 17 then
    if |(k 8).x - (k 5).x| > |(k 8).y - (k 5).y| then .H
    else if (k 8).x > (k 12).x ∧ (k 8).x - (k 12).x < handSize k * 0.4 then .R
    else if kdist k 8 12 > handSize k * 0.5 then .V
    else .U
  else if ¬ isExtended k 8 5 ∧ ¬ isExtended k 12 9 ∧ ¬ isExtended k 16 13 ∧ ¬ isExtended k 20 17 then
    if kdist k 8 5 > handSize k * 0.65 then .O
    else if (k 4).y > (k 5).y then .E
    else if |(k 4).x - (k 5).x| > handSize k * 0.25 then .A
    else .S
  else if ¬ isExtended k 8 5 ∧ ¬ isExtended k 12 9 ∧ ¬ isExtended k 16 13 ∧ isExtended k 20 17 then
    if kdist k 4 20 > handSize k * 1.2 then .Y
    else .I
  else if isExtended k 8 5 ∧ isExtended k 12 9 ∧ isExtended k 16 13 ∧ isExtended k 20 17 then
    if |(k 4).x - (k 5).x| < handSize k * 0.35 then .B
    else if kdist k 4 8 < handSize k * 0.8 ∧ kdist k 8 5 < handSize k * 0.85 then .C
    else .openHand
  else if isExtended k 8 5 ∧ isExtended k 12 9 ∧ isExtended k 16 13 ∧ ¬ isExtended k 20 17 then .W
  else .openHand

end Part000

namespace AppJs

/-- isExtended from src/src/App.js: tip-to-MCP distance above
0.55 * handSize. -/
def isExtended (k : Frame) (tip mcp : Fin 21) : Prop :=
  kdist k tip mcp > handSize k * 0.55

open Classical in
/-- Shallow embedding of recognizeGesture from src/src/App.js
(lines 90-241). pointingDown = (k 8).y > (k 0).y; the M/N/T distances
dIndex, dMiddle, dRing, dPinky are kdist k 4 5, kdist k 4 9, kdist k 4 13,
kdist k 4 17. Guarded returns that can fall through (Q, X, F) carry their
enclosing block guard as a conjunct. -/
noncomputable def recognizeGesture (k : Frame) : Sym :=
  if ((k 8).y > (k 0).y) ∧
      (isExtended k 8 5 ∧ ¬ isExtended k 12 9 ∧ ¬ isExtended k 16 13 ∧ ¬ isExtended k 20 17) ∧
      kdist k 4 8 > handSize k * 0.6 then .Q
  else if ((k 8).y > (k 0).y) ∧
      (isExtended k 8 5 ∧ isExtended k 12 9 ∧ ¬ isExtended k 16 13 ∧ ¬ isExtended k 20 17) then .P
  else if (|(k 8).x - (k 5).x| > |(k 8).y - (k 5).y| * 1.5) ∧
      ¬ isExtended k 16 13 ∧ ¬ isExtended k 20 17 then
    if isExtended k 12 9 then .H else .G
  else if (¬ isExtended k 12 9 ∧ ¬ isExtended k 16 13 ∧ ¬ isExtended k 20 17) ∧
      isExtended k 8 5 then
    if kdist k 4 5 > handSize k * 0.9 then .L else .D
  else if (¬ isExtended k 12 9 ∧ ¬ isExtended k 16 13 ∧ ¬ isExtended k 20 17) ∧
      kdist k 8 5 < handSize k * 0.5 ∧ kdist k 8 5 > handSize k * 0.2 then .X
  else if isExtended k 8 5 ∧ isExtended k 12 9 ∧ ¬ isExtended k 16 13 ∧ ¬ isExtended k 20 17 then
    if |(k 8).x - (k 12).x| < handSize k * 0.25 then .R
    else if (k 4).y < (k 9).y + handSize k * 0.2 then .K
    else if kdist k 8 12 > handSize k * 0.45 then .V
    else .U
  else if isExtended k 8 5 ∧ isExtended k 12 9 ∧ isExtended k 16 13 then
    if isExtended k 20 17 then
      if kdist k 4 17 < handSize k * 1.0 then .B else .openHand
    else .W
  else if (¬ isExtended k 8 5 ∧ isExtended k 12 9 ∧ isExtended k 16 13 ∧ isExtended k 20 17) ∧
      kdist k 4 8 < handSize k * 0.5 then .F
  else if ¬ isExtended k 8 5 ∧ ¬ isExtended k 12 9 ∧ ¬ isExtended k 16 13 ∧ isExtended k 20 17 then
    if kdist k 4 17 > handSize k * 1.1 then .Y else .I
  else if ¬ isExtended k 8 5 ∧ ¬ isExtended k 12 9 ∧ ¬ isExtended k 16 13 ∧ ¬ isExtended k 20 17 then
    if kdist k 4 8 < handSize k * 0.5 then .O
    else if kdist k 4 13 < handSize k * 0.5 ∧ (k 4).y > (k 13).y then .E
    else if kdist k 4 5 > handSize k * 0.5 ∧ (k 4).y < (k 5).y then .A
    else if kdist k 4 13 < handSize k * 0.3 ∨ kdist k 4 17 < handSize k * 0.35 then .M
    else if kdist k 4 9 < handSize k * 0.3 then .N
    else if kdist k 4 5 < handSize k * 0.35 then .T
    else .S
  else .openHand

end AppJs

/-! ## Stabilization engine

Shallow embedding of the per-frame body of detect from src/unnamed/part_000
(lines 169-233), the variant whose constants (BUFFER_SIZE = 5,
STABLE_THRESHOLD = 15) match the window capacity the claims quantify over.
An input frame is some raw when a hand was detected (raw being the value of
recognizeGesture on it) and none when hands.length == 0. -/

/-- BUFFER_SIZE from src/unnamed/part_000. -/
def BUFFER_SIZE : Nat := 5

/-- STABLE_THRESHOLD from src/unnamed/part_000. -/
def STABLE_THRESHOLD : Nat := 15

/-- The push-then-shift update of gestureBuffer: push raw, and if the length
now exceeds BUFFER_SIZE, shift (drop the front element). -/
def pushTrim (buf : List Sym) (raw : Sym) : List Sym :=
  let b := buf ++ [raw]
  if b.length > BUFFER_SIZE then b.tail else b

/-- The majority scan of the smoothing loop: walk the buffer front to back
keeping a per-symbol count table, the maximal count seen so far and the
current winner; a symbol becomes the winner exactly when its incremented
count strictly exceeds the maximum so far (counts becomes the JS counts
object, maxCount and sm the two loop variables, sm starting at rawGesture). -/
def smoothScan : List Sym → (Sym → Nat) → Nat → Sym → Sym
  | [], _, _, sm => sm
  | g :: rest, counts, maxCount, sm =>
      let c := counts g + 1
      if c > maxCount then smoothScan rest (fun x => if x = g then c else counts x) c g
      else smoothScan rest (fun x => if x = g then c else counts x) maxCount sm

/-- smoothedGesture: the majority vote over the buffer, initialised to the
raw gesture with maxCount 0 exactly as in the source. -/
def smoothedGesture (buf : List Sym) (raw : Sym) : Sym :=
  smoothScan buf (fun _ => 0) 0 raw

/-- The mutable refs and state of the detect loop: text (the accumulated
output string, as a list of its committed one-character symbols),
lastWrittenLetter, stableGesture, stableCount, wasHandPresent, gestureBuffer,
and the displayed gesture banner. -/
structure DetectState where
  text : List Sym
  lastWritten : Sym
  stableGesture : Sym
  stableCount : Nat
  wasHandPresent : Bool
  gestureBuffer : List Sym
  gesture : Sym
  deriving DecidableEq, Repr

/-- The state at session start: empty text and buffer, empty-string refs,
zero counter, no hand seen, loading banner. -/
def initState : DetectState :=
  { text := [], lastWritten := .blank, stableGesture := .blank, stableCount := 0,
    wasHandPresent := false, gestureBuffer := [], gesture := .loading }

/-- One invocation of detect. Hand present (some raw): set wasHandPresent,
push raw through the buffer, recompute the smoothed gesture, update the
stability streak, and on reaching STABLE_THRESHOLD either commit (when the
smoothed gesture is neither the open-hand sentinel nor the show-your-hand
string and differs from lastWrittenLetter) or, when it is the open-hand
sentinel, clear lastWrittenLetter. Hand absent (none): show the banner,
zero the streak, clear lastWrittenLetter, and on a present-to-absent
transition append one space when text is non-empty and does not already end
with a space. -/
def detectStep (s : DetectState) (input : Option Sym) : DetectState :=
  match input with
  | some raw =>
      let buf := pushTrim s.gestureBuffer raw
      let sm := smoothedGesture buf raw
      let stG := if sm = s.stableGesture then s.stableGesture else sm
      let stC := if sm = s.stableGesture then s.stableCount + 1 else 1
      let text2 :=
        if stC ≥ STABLE_THRESHOLD ∧ (sm ≠ .openHand ∧ sm ≠ .showYourHand) ∧ sm ≠ s.lastWritten
        then s.text ++ [sm] else s.text
      let lw2 :=
        if stC ≥ STABLE_THRESHOLD then
          if sm ≠ .openHand ∧ sm ≠ .showYourHand then
            if sm ≠ s.lastWritten then sm else s.lastWritten
          else if sm = .openHand then .blank
          else s.lastWritten
        else s.lastWritten
      { text := text2, lastWritten := lw2, stableGesture := stG, stableCount := stC,
        wasHandPresent := true, gestureBuffer := buf, gesture := sm }
  | none =>
      let text2 :=
        if s.wasHandPresent ∧ s.text ≠ [] ∧ s.text.getLast? ≠ some .space
        then s.text ++ [.space] else s.text
      { text := text2, lastWritten := .blank, stableGesture := s.stableGesture,
        stableCount := 0, wasHandPresent := false, gestureBuffer := s.gestureBuffer,
        gesture := .showHand }

/-- Running detect over a whole input stream, one invocation per frame in
frame order. -/
def detectRun (s : DetectState) (inputs : List (Option Sym)) : DetectState :=
  inputs.foldl detectStep s

/-- The state reached after n consecutive present frames of the same raw
symbol s starting from the initial state, for committable s and n ≥ 1: an
all-s window of size min n 5, the streak (s, n), and exactly one commit of
s, which has happened as soon as n reaches STABLE_THRESHOLD. -/
def holdState (s : Sym) (n : Nat) : DetectState :=
  { text := if STABLE_THRESHOLD ≤ n then [s] else [],
    lastWritten := if STABLE_THRESHOLD ≤ n then s else .blank,
    stableGesture := s, stableCount := n, wasHandPresent := true,
    gestureBuffer := List.replicate (min n BUFFER_SIZE) s, gesture := s }

/-- The full set of values either classifier can return: the 24 static
letters of the rule sets plus the open-hand sentinel. -/
def alphabet : List Sym :=
  [.A, .B, .C, .D, .E, .F, .G, .H, .I, .K, .L, .M, .N, .O, .P, .Q, .R, .S,
   .T, .U, .V, .W, .X, .Y, .openHand]

/-! ## Wave-gesture engine, modelled from the spec

No wave-detection code exists under src/ (neither variant of the repository
tracks the wrist x-coordinate); the wave subsystem is specified only in
section 4.2 of the design document. The following model is written from the
words of that section. -/

/-- Modelled from the spec: the wave-gesture state of section 4.2 of the
design document, absent from src/. prevWristX, waveDirection (0 = unset,
otherwise +1 or -1), waveCycleCount and waveStationaryFrames are the four
counters the spec names; waveLock is the last-committed lock that guards
Append(" HELLO "); waveText is the output text the engine appends to;
emittedWave records whether this frame's raw symbol was overridden to WAVE. -/
structure WaveState where
  prevWristX : Option ℚ
  waveDirection : Int
  waveCycleCount : Nat
  waveStationaryFrames : Nat
  waveLock : Bool
  waveText : String
  emittedWave : Bool
  deriving DecidableEq, Repr

/-- Modelled from the spec: the wave engine state at session start (zero
counters, nothing tracked, empty output). -/
def waveInit : WaveState :=
  { prevWristX := none, waveDirection := 0, waveCycleCount := 0,
    waveStationaryFrames := 0, waveLock := false, waveText := "",
    emittedWave := false }

/-- Modelled from the spec: the commit check at the end of a wave step. Once
waveCycleCount reaches 4 the raw symbol is overridden to WAVE and, unless the
last-committed lock is held, Append(" HELLO ") fires and the lock engages;
the cycle counter then resets. -/
def waveCommit (s : WaveState) : WaveState :=
  if s.waveCycleCount ≥ 4 then
    { s with
      emittedWave := true
      waveCycleCount := 0
      waveText := if s.waveLock then s.waveText else s.waveText ++ " HELLO "
      waveLock := true }
  else { s with emittedWave := false }

/-- Modelled from the spec: one frame of wave detection (section 4.2, absent
from src/). When the four-finger-extended precondition fails, the wave state
resets so a wave cannot accumulate across unrelated gestures. Otherwise the
wrist x-displacement since the previous frame is compared against
handSize * 0.04: above the threshold it yields a direction, a direction
reversal increments waveCycleCount and the stationary run resets; at or
below it the stationary run grows, and past 10 stationary frames the cycle
counter resets to zero. The commit check then runs. -/
def waveStep (handSize : ℚ) (fourExtended : Bool) (wristX : ℚ)
    (s : WaveState) : WaveState :=
  if fourExtended = false then
    { s with
      prevWristX := none
      waveDirection := 0
      waveCycleCount := 0
      waveStationaryFrames := 0
      waveLock := false
      emittedWave := false }
  else
    match s.prevWristX with
    | none => { s with prevWristX := some wristX, emittedWave := false }
    | some p =>
        let dx := wristX - p
        if |dx| > handSize * (4 / 100) then
          let dir : Int := if dx > 0 then 1 else -1
          waveCommit
            { s with
              prevWristX := some wristX
              waveDirection := dir
              waveStationaryFrames := 0
              waveCycleCount :=
                if s.waveDirection ≠ 0 ∧ dir ≠ s.waveDirection
                then s.waveCycleCount + 1 else s.waveCycleCount }
        else
          waveCommit
            { s with
              prevWristX := some wristX
              waveStationaryFrames := s.waveStationaryFrames + 1
              waveCycleCount :=
                if s.waveStationaryFrames + 1 > 10 then 0
                else s.waveCycleCount }

/-- Modelled from the spec: the wave engine run over a stream of frames, all
with the four-finger-extended precondition holding, given as the wrist
x-coordinates in frame order. -/
def waveRun (handSize : ℚ) (xs : List ℚ) (s : WaveState) : WaveState :=
  xs.foldl (fun t x => waveStep handSize true x t) s

/-- The wrist x-coordinates of a canonical four-reversal wave: starting at
x0, five alternating strokes of amplitude amp (the first stroke sets the
direction, the next four each reverse it). -/
def waveXs (x0 amp : ℚ) : List ℚ :=
  [x0, x0 + amp, x0, x0 + amp, x0, x0 + amp]

/-- A concrete mid-session stabilization state used to witness the C6 step
clause: an all-sentinel window about to make the open hand the stable
smoothed symbol. -/
def c6state : DetectState :=
  { text := [Sym.A], lastWritten := .A, stableGesture := .openHand,
    stableCount := 20, wasHandPresent := true,
    gestureBuffer := [.openHand, .openHand, .openHand], gesture := .openHand }

/-- A concrete stabilization state used to witness C5: one committed letter,
hand currently present, no streak. -/
def c5state : DetectState :=
  { text := [Sym.A], lastWritten := .blank, stableGesture := .blank,
    stableCount := 0, wasHandPresent := true, gestureBuffer := [],
    gesture := .A }

/-- A concrete wave state used to witness the stationary-reset clause of C1:
three accumulated cycles and ten stationary frames already seen. -/
def waveStat : WaveState :=
  { prevWristX := some 0, waveDirection := 1, waveCycleCount := 3,
    waveStationaryFrames := 10, waveLock := false, waveText := "",
    emittedWave := false }

lemma detectRun_append (s : DetectState) (l₁ l₂ : List (Option Sym)) :
    detectRun s (l₁ ++ l₂) = detectRun (detectRun s l₁) l₂ := by
  simp only [detectRun, List.foldl_append]

/-- Scanning a run of copies of s cannot dethrone s once s is the current
winner: every step either keeps the winner or reinstates s. -/
lemma smoothScan_self (s : Sym) :
    ∀ (m : Nat) (counts : Sym → Nat) (maxCount : Nat),
      smoothScan (List.replicate m s) counts maxCount s = s := by
  intro m
  induction m with
  | zero => intro counts maxCount; simp [smoothScan]
  | succ n ih =>
      intro counts maxCount
      rw [List.replicate_succ, smoothScan]
      split
      · exact ih _ _
      · exact ih _ _

/-- The majority vote over a non-empty all-s buffer is s. -/
lemma smoothedGesture_replicate (s raw : Sym) (n : Nat) :
    smoothedGesture (List.replicate (n + 1) s) raw = s := by
  rw [smoothedGesture, List.replicate_succ, smoothScan]
  simp only [Nat.zero_add, gt_iff_lt, Nat.zero_lt_one, if_true]
  exact smoothScan_self s n _ _

/-- Pushing one more copy of s into an all-s window of size min n 5 yields
the all-s window of size min (n+1) 5. -/
lemma pushTrim_replicate (s : Sym) (n : Nat) :
    pushTrim (List.replicate (min n BUFFER_SIZE) s) s
      = List.replicate (min (n + 1) BUFFER_SIZE) s := by
  rw [pushTrim, BUFFER_SIZE]
  rw [← List.replicate_succ']
  rcases le_or_lt 5 n with h | h
  · rw [min_eq_right h, min_eq_right (by omega)]
    simp [List.replicate_succ]
  · rw [min_eq_left (by omega), min_eq_left (by omega)]
    have : ¬ (List.replicate (n + 1) s).length > 5 := by
      simp [List.length_replicate]; omega
    rw [if_neg this]

lemma hold_step (s : Sym) (n : Nat) (h1 : 1 ≤ n) (hs1 : s ≠ .openHand)
    (hs2 : s ≠ .showYourHand) (hs3 : s ≠ .blank) :
    detectStep (holdState s n) (some s) = holdState s (n + 1) := by
  have hbuf := pushTrim_replicate s n
  have hmin : min (n + 1) BUFFER_SIZE = (min (n + 1) BUFFER_SIZE - 1) + 1 := by
    rw [BUFFER_SIZE]; omega
  have hsm : smoothedGesture (List.replicate (min (n + 1) BUFFER_SIZE) s) s = s := by
    rw [hmin, smoothedGesture_replicate]
  simp only [detectStep, holdState, hbuf, hsm, STABLE_THRESHOLD]
  rcases le_or_lt 15 n with h15 | h15
  · have h16 : 15 ≤ n + 1 := by omega
    simp [hs1, hs2, hs3, h15, h16]
  · rcases le_or_lt 15 (n + 1) with h16 | h16
    · have h15n : ¬ 15 ≤ n := by omega
      simp [hs1, hs2, hs3, h15n, h16]
    · have h15n : ¬ 15 ≤ n := by omega
      have h16n : ¬ 15 ≤ n + 1 := by omega
      simp [hs1, hs2, hs3, h15n, h16n]

lemma detectRun_cons (s : DetectState) (x : Option Sym) (l : List (Option Sym)) :
    detectRun s (x :: l) = detectRun (detectStep s x) l := rfl

lemma hold_run (s : Sym) (hs1 : s ≠ .openHand) (hs2 : s ≠ .showYourHand)
    (hs3 : s ≠ .blank) :
    ∀ n, 1 ≤ n → detectRun initState (List.replicate n (some s)) = holdState s n := by
  intro n hn
  induction n with
  | zero => omega
  | succ m ih =>
      rcases Nat.lt_or_ge 1 (m + 1) with h1 | h1
      · have hm : 1 ≤ m := by omega
        rw [List.replicate_succ', detectRun_append, ih hm]
        simpa using hold_step s m hm hs1 hs2 hs3
      · have hm0 : m = 0 := by omega
        subst hm0
        simp only [List.replicate_succ, List.replicate_zero, detectRun, List.foldl_cons,
          List.foldl_nil, detectStep, initState, holdState, pushTrim, List.nil_append,
          smoothedGesture, smoothScan, STABLE_THRESHOLD, BUFFER_SIZE]
        simp [hs3, List.replicate_succ]

/-- An absent frame seen while the hand was already absent only re-issues the
banner and re-zeroes the already zero fields: text is unchanged. -/
lemma absent_idle (s : DetectState) (h : s.wasHandPresent = false) :
    detectStep s none
      = { s with
          gesture := .showHand
          stableCount := 0
          lastWritten := .blank
          wasHandPresent := false } := by
  simp [detectStep, h]

/-- The first absent frame after a present one appends exactly one space when
text is non-empty and does not already end in a space. -/
lemma absent_transition (s : DetectState) (hp : s.wasHandPresent = true)
    (ht : s.text ≠ []) (hl : s.text.getLast? ≠ some .space) :
    detectStep s none
      = { s with
          text := s.text ++ [.space]
          gesture := .showHand
          stableCount := 0
          lastWritten := .blank
          wasHandPresent := false } := by
  simp [detectStep, hp, ht, hl]

/-- Any number of further absent frames after the hand is gone leave text
unchanged and keep the streak at zero. -/
lemma idle_run (j : Nat) :
    ∀ (s : DetectState), s.wasHandPresent = false → s.stableCount = 0 →
      (detectRun s (List.replicate j none)).text = s.text ∧
      (detectRun s (List.replicate j none)).wasHandPresent = false ∧
      (detectRun s (List.replicate j none)).stableCount = 0 := by
  induction j with
  | zero => intro s h0 h1; exact ⟨rfl, h0, h1⟩
  | succ m ih =>
      intro s h0 h1
      rw [List.replicate_succ, detectRun_cons, absent_idle s h0]
      exact ih _ rfl rfl

/-- A present frame arriving with a zero stability streak can never commit
(the streak becomes 1 < STABLE_THRESHOLD), so text is unchanged. -/
lemma present_no_commit (s : DetectState) (h : s.stableCount = 0) (r : Sym) :
    (detectStep s (some r)).text = s.text := by
  by_cases hsm : smoothedGesture (pushTrim s.gestureBuffer r) r = s.stableGesture
  · simp [detectStep, h, hsm, STABLE_THRESHOLD]
  · simp [detectStep, h, hsm, STABLE_THRESHOLD]

/-- One detect invocation cannot introduce the open-hand sentinel into text:
the absent branch appends at most a space and the commit branch is guarded by
the smoothed gesture being distinct from the sentinel. -/
lemma step_no_openHand (s : DetectState) (i : Option Sym)
    (h : Sym.openHand ∉ s.text) : Sym.openHand ∉ (detectStep s i).text := by
  cases i with
  | none =>
      simp only [detectStep]
      split_ifs with hc
      · simp only [List.mem_append, List.mem_singleton]
        rintro (h1 | h2)
        · exact h h1
        · exact absurd h2 (by decide)
      · exact h
  | some raw =>
      have key : ∀ (sm : Sym), sm ≠ Sym.openHand → Sym.openHand ∉ s.text ++ [sm] := by
        intro sm hsm
        simp only [List.mem_append, List.mem_singleton]
        rintro (h1 | h2)
        · exact h h1
        · exact hsm h2.symm
      simp only [detectStep]
      split_ifs with hc1 hA hB
      · exact key _ hA.2.1.1
      · exact h
      · exact key _ hB.2.1.1
      · exact h

/-- Running detect over any input stream preserves absence of the open-hand
sentinel from text. -/
lemma run_no_openHand (inputs : List (Option Sym)) :
    ∀ (s : DetectState), Sym.openHand ∉ s.text →
      Sym.openHand ∉ (detectRun s inputs).text := by
  induction inputs with
  | nil => intro s h; exact h
  | cons x l ih => intro s h; rw [detectRun_cons]; exact ih _ (step_no_openHand s x h)

/-! ## Geometry lemmas for the classifier -/

lemma hyp_mul (s a b : ℝ) (hs : 0 ≤ s) : hyp (s * a) (s * b) = s * hyp a b := by
  rw [hyp, hyp, mul_pow, mul_pow, ← mul_add, Real.sqrt_mul (by positivity) _,
    Real.sqrt_sq hs]

lemma scaleFrame_x (s : ℝ) (k : Frame) (i : Fin 21) :
    (scaleFrame s k i).x = s * (k i).x := rfl

lemma scaleFrame_y (s : ℝ) (k : Frame) (i : Fin 21) :
    (scaleFrame s k i).y = s * (k i).y := rfl

lemma kdist_scale {s : ℝ} (hs : 0 ≤ s) (k : Frame) (i j : Fin 21) :
    kdist (scaleFrame s k) i j = s * kdist k i j := by
  rw [kdist, kdist, scaleFrame_x, scaleFrame_x, scaleFrame_y, scaleFrame_y,
    ← mul_sub, ← mul_sub, hyp_mul _ _ _ hs]

lemma handSize_scale {s : ℝ} (hs : 0 ≤ s) (k : Frame) :
    handSize (scaleFrame s k) = s * handSize k := kdist_scale hs k 9 0

lemma isExtended_scale_p0 {s : ℝ} (hs : 0 < s) (k : Frame) (t m : Fin 21) :
    Part000.isExtended (scaleFrame s k) t m ↔ Part000.isExtended k t m := by
  rw [Part000.isExtended, Part000.isExtended, kdist_scale hs.le, handSize_scale hs.le,
    gt_iff_lt, mul_assoc, mul_lt_mul_left hs, gt_iff_lt]

lemma isExtended_scale_app {s : ℝ} (hs : 0 < s) (k : Frame) (t m : Fin 21) :
    AppJs.isExtended (scaleFrame s k) t m ↔ AppJs.isExtended k t m := by
  rw [AppJs.isExtended, AppJs.isExtended, kdist_scale hs.le, handSize_scale hs.le,
    gt_iff_lt, mul_assoc, mul_lt_mul_left hs, gt_iff_lt]

lemma scale_invariant_p0 {s : ℝ} (hs : 0 < s) (k : Frame) :
    Part000.recognizeGesture (scaleFrame s k) = Part000.recognizeGesture k := by
  classical
  simp only [Part000.recognizeGesture, isExtended_scale_p0 hs, kdist_scale hs.le,
    handSize_scale hs.le, scaleFrame_x, scaleFrame_y, ← mul_sub, ← mul_add, abs_mul,
    abs_of_pos hs, mul_assoc, mul_lt_mul_left hs, gt_iff_lt]

lemma scale_invariant_app {s : ℝ} (hs : 0 < s) (k : Frame) :
    AppJs.recognizeGesture (scaleFrame s k) = AppJs.recognizeGesture k := by
  classical
  simp only [AppJs.recognizeGesture, isExtended_scale_app hs, kdist_scale hs.le,
    handSize_scale hs.le, scaleFrame_x, scaleFrame_y, ← mul_sub, ← mul_add, abs_mul,
    abs_of_pos hs, mul_assoc, mul_lt_mul_left hs, gt_iff_lt]

lemma add_sub_lt_add_iff (a b c t : ℝ) : a + c - t < b + c ↔ a - t < b := by
  constructor <;> intro h <;> linarith

lemma add_lt_add_add_iff (a b c t : ℝ) : a + c < b + c + t ↔ a < b + t := by
  constructor <;> intro h <;> linarith

lemma translateFrame_x (dx dy : ℝ) (k : Frame) (i : Fin 21) :
    (translateFrame dx dy k i).x = (k i).x + dx := rfl

lemma translateFrame_y (dx dy : ℝ) (k : Frame) (i : Fin 21) :
    (translateFrame dx dy k i).y = (k i).y + dy := rfl

lemma kdist_translate (dx dy : ℝ) (k : Frame) (i j : Fin 21) :
    kdist (translateFrame dx dy k) i j = kdist k i j := by
  rw [kdist, kdist, translateFrame_x, translateFrame_x, translateFrame_y,
    translateFrame_y, add_sub_add_right_eq_sub, add_sub_add_right_eq_sub]

lemma handSize_translate (dx dy : ℝ) (k : Frame) :
    handSize (translateFrame dx dy k) = handSize k := kdist_translate dx dy k 9 0

lemma isExtended_translate_p0 (dx dy : ℝ) (k : Frame) (t m : Fin 21) :
    Part000.isExtended (translateFrame dx dy k) t m ↔ Part000.isExtended k t m := by
  rw [Part000.isExtended, Part000.isExtended, kdist_translate, handSize_translate]

lemma isExtended_translate_app (dx dy : ℝ) (k : Frame) (t m : Fin 21) :
    AppJs.isExtended (translateFrame dx dy k) t m ↔ AppJs.isExtended k t m := by
  rw [AppJs.isExtended, AppJs.isExtended, kdist_translate, handSize_translate]

lemma translate_invariant_p0 (dx dy : ℝ) (k : Frame) :
    Part000.recognizeGesture (translateFrame dx dy k) = Part000.recognizeGesture k := by
  classical
  simp only [Part000.recognizeGesture, isExtended_translate_p0, kdist_translate,
    handSize_translate, translateFrame_x, translateFrame_y, add_sub_add_right_eq_sub,
    add_lt_add_iff_right, add_sub_lt_add_iff, add_lt_add_add_iff, gt_iff_lt]

lemma translate_invariant_app (dx dy : ℝ) (k : Frame) :
    AppJs.recognizeGesture (translateFrame dx dy k) = AppJs.recognizeGesture k := by
  classical
  simp only [AppJs.recognizeGesture, isExtended_translate_app, kdist_translate,
    handSize_translate, translateFrame_x, translateFrame_y, add_sub_add_right_eq_sub,
    add_lt_add_iff_right, add_sub_lt_add_iff, add_lt_add_add_iff, gt_iff_lt]

/-- On the degenerate frame every distance and every threshold is zero, so
every strict comparison in the part_000 rule set fails and the fist branch
falls through to S. -/
lemma recognize_zero_p0 : Part000.recognizeGesture zeroFrame = Sym.S := by
  classical
  norm_num [Part000.recognizeGesture, Part000.isExtended, kdist, hyp, handSize,
    zeroFrame, Real.sqrt_zero]

/-- On the degenerate frame the App.js rule set likewise falls through to S. -/
lemma recognize_zero_app : AppJs.recognizeGesture zeroFrame = Sym.S := by
  classical
  norm_num [AppJs.recognizeGesture, AppJs.isExtended, kdist, hyp, handSize,
    zeroFrame, Real.sqrt_zero]

/-! ## Claim theorems -/

set_option maxRecDepth 100000
set_option maxHeartbeats 2000000

/-- A conditional with both branches in a list is in the list; applied
recursively this traverses the classifier decision trees leaf by leaf. -/
lemma mem_ite_sym {c : Prop} [Decidable c] {a b : Sym} {l : List Sym}
    (ha : a ∈ l) (hb : b ∈ l) : (if c then a else b) ∈ l := by
  by_cases hc : c
  · rwa [if_pos hc]
  · rwa [if_neg hc]

/-- Concrete rational threshold facts used by the C1 witness (rational
arithmetic on non-literals does not reduce in the kernel, so these are
proved by norm_num rather than decide). -/
lemma one_mul_thresh_lt_one : (1:ℚ) * (4 / 100) < 1 := by norm_num

lemma zero_move_below_thresh : ¬ ((1:ℚ) * (4 / 100) < |(0:ℚ) - 0|) := by norm_num

/-- C1 (spec-modelled, the wave subsystem is absent from src/): for every
start position, every amplitude above the displacement threshold and every
positive hand size, a stream in which the wrist makes four direction
reversals with all four fingers extended ends with the raw symbol overridden
to WAVE, exactly one Append(" HELLO ") fired, and the cycle counter reset;
and a frame whose motion stays at or below the threshold after ten
stationary frames resets the wave cycle counter to zero. -/
theorem c1_wave_hello_once_and_stationary_reset :
    (∀ x0 amp hs : ℚ, 0 < hs → hs * (4 / 100) < amp →
        (waveRun hs (waveXs x0 amp) waveInit).waveText = " HELLO " ∧
        (waveRun hs (waveXs x0 amp) waveInit).emittedWave = true ∧
        (waveRun hs (waveXs x0 amp) waveInit).waveCycleCount = 0) ∧
    (∀ (s : WaveState) (hs x p : ℚ), s.prevWristX = some p →
        ¬ (hs * (4 / 100) < |x - p|) → 10 ≤ s.waveStationaryFrames →
        (waveStep hs true x s).waveCycleCount = 0) := by
  constructor
  · intro x0 amp hs h1 h2
    have hamp0 : 0 < amp := lt_trans (mul_pos h1 (by norm_num)) h2
    have habs : hs * (4 / 100) < |amp| := by rw [abs_of_pos hamp0]; exact h2
    have hneg : ¬ (0 < -amp) := by rw [neg_pos]; exact not_lt.mpr hamp0.le
    have e1 : waveStep hs true x0 waveInit
        = ⟨some x0, 0, 0, 0, false, "", false⟩ := by
      simp [waveStep, waveInit]
    have e2 : waveStep hs true (x0 + amp) ⟨some x0, 0, 0, 0, false, "", false⟩
        = ⟨some (x0 + amp), 1, 0, 0, false, "", false⟩ := by
      simp [waveStep, waveCommit, habs, hamp0]
    have e3 : waveStep hs true x0 ⟨some (x0 + amp), 1, 0, 0, false, "", false⟩
        = ⟨some x0, -1, 1, 0, false, "", false⟩ := by
      simp [waveStep, waveCommit, habs, hneg]
    have e4 : waveStep hs true (x0 + amp) ⟨some x0, -1, 1, 0, false, "", false⟩
        = ⟨some (x0 + amp), 1, 2, 0, false, "", false⟩ := by
      simp [waveStep, waveCommit, habs, hamp0]
    have e5 : waveStep hs true x0 ⟨some (x0 + amp), 1, 2, 0, false, "", false⟩
        = ⟨some x0, -1, 3, 0, false, "", false⟩ := by
      simp [waveStep, waveCommit, habs, hneg]
    have e6 : waveStep hs true (x0 + amp) ⟨some x0, -1, 3, 0, false, "", false⟩
        = ⟨some (x0 + amp), 1, 0, 0, true, " HELLO ", true⟩ := by
      simp [waveStep, waveCommit, habs, hamp0]
    simp only [waveRun, waveXs, List.foldl_cons, List.foldl_nil]
    rw [e1, e2, e3, e4, e5, e6]
    exact ⟨rfl, rfl, rfl⟩
  · intro s hs x p hprev hth hstat
    have h10 : s.waveStationaryFrames + 1 > 10 := by omega
    simp [waveStep, waveCommit, hprev, hth, h10]

/-- Witness for C1: hand size 1, amplitude 1 (above the threshold 1/25),
start position 0; and the concrete waveStat state with ten stationary frames
already seen and a stationary frame arriving. -/
theorem c1_witness :
    ((0:ℚ) < 1 ∧ (1:ℚ) * (4 / 100) < 1 ∧ ¬ ((1:ℚ) * (4 / 100) < |(0:ℚ) - 0|) ∧
      10 ≤ waveStat.waveStationaryFrames) ∧
    (waveRun 1 (waveXs 0 1) waveInit).waveText = " HELLO " ∧
    (waveStep 1 true 0 waveStat).waveCycleCount = 0 :=
  ⟨⟨by norm_num, one_mul_thresh_lt_one, zero_move_below_thresh, by decide⟩,
   (c1_wave_hello_once_and_stationary_reset.1 0 1 1 (by norm_num) one_mul_thresh_lt_one).1,
   c1_wave_hello_once_and_stationary_reset.2 waveStat 1 0 0 rfl zero_move_below_thresh
     (by decide)⟩

/-- C2 counterexample: on the degenerate but valid frame with handSize = 0
(all keypoints coincide) both classifier variants return the letter S rather
than the FIST_AMBIGUOUS open-hand sentinel (and there is no NO_HAND or error
outcome in the classifier at all, its codomain being Sym). -/
theorem c2_counterexample :
    Part000.recognizeGesture zeroFrame ≠ Sym.openHand ∧
    AppJs.recognizeGesture zeroFrame ≠ Sym.openHand := by
  rw [recognize_zero_p0, recognize_zero_app]
  exact ⟨by decide, by decide⟩

/-- C2 (amended): the classifiers perform no input validation and have no
failure channel; on degenerate geometry with handSize = 0 every threshold
test fails and both rule sets fall through the fist branch to the letter S,
not to FIST_AMBIGUOUS or NO_HAND and not to an InvalidFrame error. -/
theorem c2_amended :
    handSize zeroFrame = 0 ∧
    Part000.recognizeGesture zeroFrame = Sym.S ∧
    AppJs.recognizeGesture zeroFrame = Sym.S := by
  refine ⟨?_, recognize_zero_p0, recognize_zero_app⟩
  simp [handSize, kdist, hyp, zeroFrame]

/-- C3 counterexample: the stream D×15, FIST_AMBIGUOUS×5, D×15 does not
leave "DD" in the output text. -/
theorem c3_counterexample :
    (detectRun initState
        (List.replicate 15 (some Sym.D) ++ List.replicate 5 (some Sym.openHand)
          ++ List.replicate 15 (some Sym.D))).text ≠ [Sym.D, Sym.D] := by
  decide

/-- C3 (amended): the stream D×15, FIST_AMBIGUOUS×5, D×15 leaves output
text "D". The five ambiguous frames never make the open-hand sentinel the
stable smoothed symbol for STABLE_THRESHOLD frames, so the repeat-suppression
lock is never cleared and the second run of D is suppressed. -/
theorem c3_amended :
    (detectRun initState
        (List.replicate 15 (some Sym.D) ++ List.replicate 5 (some Sym.openHand)
          ++ List.replicate 15 (some Sym.D))).text = [Sym.D] := by
  decide

/-- C4 counterexample: from the reachable state after X×37 (whose
lastCommitted X differs from the committable symbol D), feeding D for
STABLE_THRESHOLD = 15 consecutive frames appends nothing: the all-X window
keeps the smoothed symbol at X for two frames, so the D streak only reaches
13 and the text still reads "X". -/
theorem c4_counterexample :
    (detectRun initState
        (List.replicate 37 (some Sym.X) ++ List.replicate 15 (some Sym.D))).text
      = [Sym.X] := by
  decide

/-- C4 (amended): from the initial stabilization state, feeding a committable
symbol s (distinct from the open-hand sentinel, the show-your-hand guard
string and the empty lastCommitted) for STABLE_THRESHOLD frames appends s
exactly once, and for 2×STABLE_THRESHOLD frames still exactly once. From an
arbitrary state the smoothing window can delay stabilization, so
STABLE_THRESHOLD frames need not suffice. -/
theorem c4_amended (s : Sym) (hs1 : s ≠ .openHand) (hs2 : s ≠ .showYourHand)
    (hs3 : s ≠ .blank) :
    (detectRun initState (List.replicate STABLE_THRESHOLD (some s))).text = [s] ∧
    (detectRun initState (List.replicate (2 * STABLE_THRESHOLD) (some s))).text = [s] := by
  constructor
  · rw [hold_run s hs1 hs2 hs3 STABLE_THRESHOLD (by rw [STABLE_THRESHOLD]; omega)]
    simp [holdState, STABLE_THRESHOLD]
  · rw [hold_run s hs1 hs2 hs3 (2 * STABLE_THRESHOLD) (by rw [STABLE_THRESHOLD]; omega)]
    simp [holdState, STABLE_THRESHOLD]

/-- Witness for C4 at the concrete committable symbol D. -/
theorem c4_witness :
    (Sym.D ≠ Sym.openHand ∧ Sym.D ≠ Sym.showYourHand ∧ Sym.D ≠ Sym.blank) ∧
    (detectRun initState (List.replicate STABLE_THRESHOLD (some Sym.D))).text = [Sym.D] ∧
    (detectRun initState (List.replicate (2 * STABLE_THRESHOLD) (some Sym.D))).text = [Sym.D] :=
  ⟨⟨by decide, by decide, by decide⟩,
   (c4_amended Sym.D (by decide) (by decide) (by decide)).1,
   (c4_amended Sym.D (by decide) (by decide) (by decide)).2⟩

/-- C5: from any stabilization state with the hand present, non-empty text
not ending in a space, a present-to-absent transition appends exactly one
space no matter how many absent frames follow, and the first present frame
after the gap appends nothing further (its streak restarts at 1). -/
theorem c5_auto_space_exactly_once (s : DetectState) (k : Nat) (hk : 1 ≤ k)
    (hp : s.wasHandPresent = true) (ht : s.text ≠ [])
    (hl : s.text.getLast? ≠ some .space) (r : Sym) :
    (detectRun s (List.replicate k none)).text = s.text ++ [.space] ∧
    (detectRun s (List.replicate k none ++ [some r])).text = s.text ++ [.space] := by
  obtain ⟨j, rfl⟩ : ∃ j, k = j + 1 := ⟨k - 1, by omega⟩
  have h1 := absent_transition s hp ht hl
  have h2 := idle_run j (detectStep s none) (by rw [h1]) (by rw [h1])
  constructor
  · rw [List.replicate_succ, detectRun_cons, h2.1, h1]
  · rw [detectRun_append]
    show (detectStep (detectRun s (List.replicate (j + 1) none)) (some r)).text
      = s.text ++ [Sym.space]
    have hc : (detectRun s (List.replicate (j + 1) none)).stableCount = 0 := by
      rw [List.replicate_succ, detectRun_cons]
      exact h2.2.2
    rw [present_no_commit _ hc r, List.replicate_succ, detectRun_cons, h2.1, h1]

/-- Witness for C5: state with text "A", hand present, three absent frames
then a present frame of B; exactly one space is appended. -/
theorem c5_witness :
    (c5state.text ≠ [] ∧ c5state.text.getLast? ≠ some Sym.space) ∧
    (detectRun c5state (List.replicate 3 none)).text = c5state.text ++ [Sym.space] ∧
    (detectRun c5state (List.replicate 3 none ++ [some Sym.B])).text
      = c5state.text ++ [Sym.space] :=
  ⟨⟨by decide, by decide⟩,
   (c5_auto_space_exactly_once c5state 3 (by decide) rfl (by decide) (by decide) Sym.B).1,
   (c5_auto_space_exactly_once c5state 3 (by decide) rfl (by decide) (by decide) Sym.B).2⟩

/-- C6: the open-hand FIST_AMBIGUOUS sentinel is never committed: for every
start state whose text avoids it and every input stream, the accumulated
text still avoids it; and a present frame whose smoothed gesture is the
sentinel leaves text unchanged and, when the streak has reached
STABLE_THRESHOLD, only clears the repeat-suppression lock. -/
theorem c6_sentinel_never_committed :
    (∀ (s : DetectState) (inputs : List (Option Sym)),
        Sym.openHand ∉ s.text → Sym.openHand ∉ (detectRun s inputs).text) ∧
    (∀ (s : DetectState) (raw : Sym),
        smoothedGesture (pushTrim s.gestureBuffer raw) raw = .openHand →
          (detectStep s (some raw)).text = s.text ∧
          (STABLE_THRESHOLD ≤ (detectStep s (some raw)).stableCount →
            (detectStep s (some raw)).lastWritten = .blank)) := by
  refine ⟨fun s inputs h => run_no_openHand inputs s h, ?_⟩
  intro s raw hsm
  simp only [detectStep, hsm]
  constructor
  · rw [if_neg]
    intro h
    exact h.2.1.1 rfl
  · intro hst
    rw [if_pos hst, if_neg (fun h => h.1 rfl)]
    simp

/-- Witness for C6: the invariant at the initial state over a short stream,
and the step clause at a state whose window is all sentinel. -/
theorem c6_witness :
    Sym.openHand ∉ (detectRun initState [some Sym.D, none, some Sym.openHand]).text ∧
    ((detectStep c6state (some Sym.openHand)).text = c6state.text ∧
      (STABLE_THRESHOLD ≤ (detectStep c6state (some Sym.openHand)).stableCount →
        (detectStep c6state (some Sym.openHand)).lastWritten = Sym.blank)) :=
  ⟨c6_sentinel_never_committed.1 initState [some Sym.D, none, some Sym.openHand] (by decide),
   c6_sentinel_never_committed.2 c6state Sym.openHand (by decide)⟩

/-- C7: both classifier variants are scale-invariant: multiplying every
keypoint coordinate by a positive factor leaves the returned symbol
unchanged, every threshold being a multiple of handSize. -/
theorem c7_scale_invariant (k : Frame) (s : ℝ) (hs : 0 < s) :
    Part000.recognizeGesture (scaleFrame s k) = Part000.recognizeGesture k ∧
    AppJs.recognizeGesture (scaleFrame s k) = AppJs.recognizeGesture k :=
  ⟨scale_invariant_p0 hs k, scale_invariant_app hs k⟩

/-- Witness for C7 at the concrete frame zeroFrame and factor 2. -/
theorem c7_witness :
    ((0:ℝ) < 2) ∧
    Part000.recognizeGesture (scaleFrame 2 zeroFrame) = Part000.recognizeGesture zeroFrame ∧
    AppJs.recognizeGesture (scaleFrame 2 zeroFrame) = AppJs.recognizeGesture zeroFrame :=
  ⟨zero_lt_two, (c7_scale_invariant zeroFrame 2 zero_lt_two).1,
   (c7_scale_invariant zeroFrame 2 zero_lt_two).2⟩

/-- C8: both classifier variants are translation-invariant: adding a common
offset to every keypoint leaves the returned symbol unchanged, only relative
geometry entering the rules. -/
theorem c8_translation_invariant (k : Frame) (dx dy : ℝ) :
    Part000.recognizeGesture (translateFrame dx dy k) = Part000.recognizeGesture k ∧
    AppJs.recognizeGesture (translateFrame dx dy k) = AppJs.recognizeGesture k :=
  ⟨translate_invariant_p0 dx dy k, translate_invariant_app dx dy k⟩

/-- C9: on every 21-keypoint frame each classifier variant returns exactly
one symbol of the fixed finite alphabet (the static letters plus the
open-hand FIST_AMBIGUOUS sentinel); being total Lean functions they
terminate and cannot raise. -/
theorem c9_classifier_total (k : Frame) :
    Part000.recognizeGesture k ∈ alphabet ∧ AppJs.recognizeGesture k ∈ alphabet := by
  classical
  constructor
  · unfold Part000.recognizeGesture
    repeat' apply mem_ite_sym
    all_goals decide
  · unfold AppJs.recognizeGesture
    repeat' apply mem_ite_sym
    all_goals decide

/-- C10: an absent frame leaves the smoothing window untouched (it is
neither pushed to nor cleared) and resets only the stability count and the
repeat-suppression lock, keeping even the streak symbol; the window survives
any run of absent frames, and the first present frame after the gap computes
its smoothed symbol over the preserved pre-loss window with the new raw
symbol pushed in. -/
theorem c10_window_preserved_on_hand_loss (s : DetectState) (k : Nat) (r : Sym) :
    (detectStep s none).gestureBuffer = s.gestureBuffer ∧
    (detectStep s none).stableCount = 0 ∧
    (detectStep s none).lastWritten = Sym.blank ∧
    (detectStep s none).stableGesture = s.stableGesture ∧
    (detectRun s (List.replicate k none)).gestureBuffer = s.gestureBuffer ∧
    (detectStep (detectRun s (List.replicate k none)) (some r)).gesture
      = smoothedGesture (pushTrim s.gestureBuffer r) r := by
  have habs : ∀ (t : DetectState), (detectStep t none).gestureBuffer = t.gestureBuffer := by
    intro t
    simp [detectStep]
  have hrun : ∀ (j : Nat) (t : DetectState),
      (detectRun t (List.replicate j none)).gestureBuffer = t.gestureBuffer := by
    intro j
    induction j with
    | zero => intro t; rfl
    | succ m ih =>
        intro t
        rw [List.replicate_succ, detectRun_cons, ih, habs]
  refine ⟨habs s, by simp [detectStep], by simp [detectStep], by simp [detectStep],
    hrun k s, ?_⟩
  simp only [detectStep]
  rw [hrun k s]

end Sign
